import Mathlib

/-!
# Verification of the FloatPop popup widget core

A shallow embedding of the feature-resolution and placement logic of the
`ags-jsapi-widgets-ec-4x` repository:

* `FloatPopManager.ts` — click handling, source eligibility, click tolerance,
  per-source query dispatch and aggregation (`_showPopup`, `_clickHandler`,
  `_calculateClickTolerance`, `_fetchSceneAttributes`);
* `FloatPop.tsx` — floating alignment (`_isOutsideView`,
  `_determineCurrentAlignment`, `_getCurrentAlignment`), docking
  (`_dockingThresholdCrossed`, `_updateDockEnabledForViewSize`,
  `_shouldDockAtCurrentViewSize`, `_getCurrentDockPosition`,
  `_determineCurrentDockPosition`).

JavaScript numbers are modelled by `Int` where only linear integer arithmetic
occurs, and by `Rat` where the source divides by 2 (alignment math).  A JS
value that may be `undefined`/`null` is modelled by `Option`.  Promises are
modelled by their settlement outcome: `Option (List GraphicM)`, `none` meaning
the promise rejects, together with a `fulfilled` flag that records whether the
promise is already settled at the moment `_showPopup` makes its open/close
decision (locally resolved results are, network queries are not).
-/

namespace FloatPopSpec

/-! ## Data model of sources and graphics (FloatPopManager.ts) -/

/-- The `type` strings of layers that `_showPopup` branches on. -/
inductive LType where
  | imagery
  | csv
  | mapImage
  | wms
  | graphics
  | geoRss
  | mapNotes
  | kml
  | scene
  | feature
  | other
deriving DecidableEq, Repr

/-- A graphic (feature).  `oid` models `attributes[c.objectIdField]`,
`inExtent` models `q.intersects(a.geometry)` for the click's tolerance
extent, `popupTemplate` the graphic's own popup template. -/
structure GraphicM where
  gid : Nat
  oid : Int
  popupTemplate : Bool
  visible : Bool
  inExtent : Bool
deriving DecidableEq, Repr

/-- The layer view found by `f(c) = allLayerViews.find(a => a.layer === c)`.
`getPopupData` and `graphics3DIds` model the presence of the duck-typed
`getPopupData` / `getGraphics3DGraphics` methods (the latter with the object
ids of the already-rendered 3D graphics). -/
structure LayerViewM where
  suspended : Bool
  getPopupData : Bool
  hasDraped : Bool
  graphics3DIds : Option (List Int)
  loadedGraphics : Option (List GraphicM)
deriving DecidableEq, Repr

/-- A data source.  `hasQueryFeatures` models
`"function" === typeof c.queryFeatures`; `cached` models
`_featureLayersCache[c.id]` (never populated by the manager, hence always
false at runtime, kept for fidelity); `isGraphicCollection` models
`c.declaredClass === "esri.core.Collection<esri.Graphic>"`;
`ownGraphics` models `c.graphics` for graphics layers and the collection's
items for raw collections; `queryResult` is the eventual outcome of the
source's asynchronous query (`queryFeatures` / `queryVisibleRasters` /
`getPopupData`), `none` meaning it rejects; `view` is `f(c)`. -/
structure LayerM where
  lid : Nat
  loaded : Bool
  popupTemplate : Bool
  ltype : LType
  hasQueryFeatures : Bool
  cached : Bool
  isGraphicCollection : Bool
  objectIdField : Bool
  ownGraphics : List GraphicM
  queryResult : Option (List GraphicM)
  view : Option LayerViewM
deriving DecidableEq, Repr

/-- The forced feature handed to `_showPopup` by the click handler's hit
test: the graphic `g` and its `layer` back-reference. -/
structure ForcedM where
  g : GraphicM
  layer : Option LayerM
deriving DecidableEq, Repr

/-- Inner function `g` of `_showPopup` (FloatPopManager.ts lines 129-140):
a source is eligible when it is non-null, has a layer view, is loaded, its
view is not suspended, and it has a popup template, or is of type
graphics / geo-rss / map-notes / kml, or its layer view exposes
`getPopupData`. -/
def isEligible (c : Option LayerM) : Bool :=
  match c with
  | none => false
  | some c =>
    match c.view with
    | none => false
    | some a =>
      c.loaded && !a.suspended &&
        (c.popupTemplate || c.ltype == .graphics || c.ltype == .geoRss ||
          c.ltype == .mapNotes || c.ltype == .kml || a.getPopupData)

/-- Inner function `x` of `_showPopup` (line 142): `(a = f(a)) && a.hasDraped`. -/
def hasDraped (c : LayerM) : Bool :=
  match c.view with
  | none => false
  | some a => a.hasDraped

/-! ## Click tolerance calculator (`_calculateClickTolerance`, lines 263-272) -/

/-- A renderer symbol with pixel offsets.  A JS `undefined` offset behaves
like `0` under the truthiness guard `b.xoffset &&`. -/
structure SymbolM where
  xoffset : Int
  yoffset : Int
deriving DecidableEq, Repr

/-- The renderer shapes `_calculateClickTolerance` inspects. -/
inductive RendererM where
  | simple (symbol : Option SymbolM)
  | uniqueValue (infos : List (Option SymbolM))
  | classBreaks (infos : List (Option SymbolM))
  | other
deriving DecidableEq, Repr

/-- A candidate source as seen by the tolerance calculator: only its
renderer matters. -/
structure RSource where
  renderer : Option RendererM
deriving DecidableEq, Repr

/-- One symbol's contribution:
`(b = b.symbol) && b.xoffset && (a = Math.max(a, Math.abs(b.xoffset)))`
and likewise for `yoffset`. -/
def stepSym (a : Int) (s : Option SymbolM) : Int :=
  match s with
  | none => a
  | some s =>
    let a1 := if s.xoffset ≠ 0 then max a |s.xoffset| else a
    if s.yoffset ≠ 0 then max a1 |s.yoffset| else a1

/-- One source's contribution to the tolerance fold. -/
def stepSource (a : Int) (c : RSource) : Int :=
  match c.renderer with
  | none => a
  | some (.simple s) => stepSym a s
  | some (.uniqueValue infos) => infos.foldl stepSym a
  | some (.classBreaks infos) => infos.foldl stepSym a
  | some .other => a

/-- `_calculateClickTolerance` (FloatPopManager.ts lines 263-272): starts
at 6 and raises to the largest absolute symbol offset found. -/
def calculateClickTolerance (sources : List RSource) : Int :=
  sources.foldl stepSource 6

/-- The absolute offsets one symbol contributes (specification-side view of
the discovered offsets, used to state monotonicity). -/
def symOffsets (s : Option SymbolM) : List Int :=
  match s with
  | none => []
  | some s =>
    (if s.xoffset ≠ 0 then [|s.xoffset|] else []) ++
      (if s.yoffset ≠ 0 then [|s.yoffset|] else [])

/-- The absolute offsets one source contributes. -/
def sourceOffsets (c : RSource) : List Int :=
  match c.renderer with
  | none => []
  | some (.simple s) => symOffsets s
  | some (.uniqueValue infos) => (infos.map symOffsets).flatten
  | some (.classBreaks infos) => (infos.map symOffsets).flatten
  | some .other => []

/-- The maximum absolute symbol x/y offset discovered across the sources'
renderers (0 when none is discovered). -/
def maxOffset (sources : List RSource) : Int :=
  ((sources.map sourceOffsets).flatten).foldl max 0

/-! ## Query dispatch and aggregation (`_showPopup`, lines 126-233) -/

/-- One entry of the promise array `p`: `fulfilled` records the value of
`isFulfilled()` at the moment `_showPopup` decides whether to open
(true only for locally resolved results); `tSyncHere` records whether the
dispatch set the `t` flag synchronously (only the local-graphics branch
`0 < e.length && (t = !0, ...)` does); `result` is the eventual settlement,
`none` meaning rejection. -/
structure Slot where
  fulfilled : Bool
  tSyncHere : Bool
  result : Option (List GraphicM)
deriving DecidableEq, Repr

/-- The local filter of the pre-loaded-graphics branch:
`d.filter(a => a && (!h || a.popupTemplate) && a.visible && q.intersects(a.geometry))`
where `h` is true for raw collections and graphics layers.  The graphics
come from the collection itself, from `c.graphics`, or from the layer
view's `loadedGraphics`. -/
def localMatches (c : LayerM) : List GraphicM :=
  let pair : Option (List GraphicM × Bool) :=
    if c.isGraphicCollection then some (c.ownGraphics, true)
    else if c.ltype == .graphics then some (c.ownGraphics, true)
    else
      match c.view with
      | some a =>
        match a.loadedGraphics with
        | some gs => some (gs, false)
        | none => none
      | none => none
  match pair with
  | none => []
  | some (gs, h) => gs.filter (fun g => (!h || g.popupTemplate) && g.visible && g.inExtent)

/-- The two local corrections applied inside `c.queryFeatures(d).then(...)`
(lines 198-214): (i) with a forced feature from this same source and a
unique id field, drop returned features sharing the forced feature's id;
(ii) with no forced feature and a layer view exposing
`getGraphics3DGraphics`, keep only features whose id is among the rendered
3D graphics' ids. -/
def queryFiltered (forced : Option ForcedM) (c : LayerM) (bs : List GraphicM) : List GraphicM :=
  let bs1 :=
    match forced with
    | some f =>
      if (match f.layer with
          | some l => l.lid == c.lid
          | none => false) && c.objectIdField then
        bs.filter (fun b => b.oid ≠ f.g.oid)
      else bs
    | none => bs
  match forced with
  | some _ => bs1
  | none =>
    match c.view with
    | some a =>
      match a.graphics3DIds with
      | some ids => bs1.filter (fun b => ids.contains b.oid)
      | none => bs1
    | none => bs1

/-- `_fetchSceneAttributes` (lines 249-261).  Its then-callback refers to an
identifier `z` (`return z.eachAlways(x)`) that is bound nowhere in
FloatPopManager.ts, so at run time the callback throws a ReferenceError and
the returned promise always rejects, regardless of the per-graphic
`.otherwise` recovery inside the callback. -/
def fetchSceneAttributes (_c : LayerM) (_gs : List GraphicM) : Slot :=
  { fulfilled := false, tSyncHere := false, result := none }

/-- The per-source dispatch, inner function `n` of `_showPopup`
(lines 180-216).  Returns `none` when the source produces no promise (the
local branch with an empty filtered list leaves `g` undefined and the
subsequent `.filter(a => !!a)` drops it). -/
def dispatch (forced : Option ForcedM) (c : LayerM) : Option Slot :=
  if c.ltype == .imagery then
    some { fulfilled := false, tSyncHere := false, result := c.queryResult }
  else if c.ltype == .csv || (!c.cached && !c.hasQueryFeatures) then
    if c.ltype == .mapImage || c.ltype == .wms then
      some { fulfilled := false, tSyncHere := false, result := c.queryResult }
    else
      if (localMatches c).length > 0 then
        if c.ltype == .scene then
          some { fetchSceneAttributes c (localMatches c) with tSyncHere := true }
        else some { fulfilled := true, tSyncHere := true, result := some (localMatches c) }
      else none
  else
    some { fulfilled := false, tSyncHere := false,
           result := c.queryResult.map (queryFiltered forced c) }

/-- A top-level map layer: either a group layer with its members or a plain
layer (`a.isInstanceOf(GroupLayer) ? forEach(a.layers, ...) : ...`). -/
inductive TopLayer where
  | group (members : List LayerM)
  | plain (c : LayerM)
deriving DecidableEq, Repr

/-- The candidate filter `!g(a) || e && !x(a) || d.push(a)`: push exactly
when eligible and, in 3D, draped. -/
def eligibleFilter (is3d : Bool) (c : LayerM) : Bool :=
  isEligible (some c) && (!is3d || hasDraped c)

/-- The state `_showPopup` reads from the view and the map:  `is3d` models
`"3d" === h.type`; `viewGraphicsSource` models the `h.graphics` collection
(declared class `esri.core.Collection<esri.Graphic>`) with its items in
`ownGraphics`; `mapPoint` models the presence of `b.mapPoint`. -/
structure ShowState where
  is3d : Bool
  topLayers : List TopLayer
  viewGraphicsSource : LayerM
  mapPoint : Bool
deriving Repr

/-- The eligible map-layer candidates, in map order, groups expanded
(lines 158-162). -/
def eligibleLayers (s : ShowState) : List LayerM :=
  s.topLayers.flatMap (fun tl =>
    match tl with
    | .group ms => ms.filter (eligibleFilter s.is3d)
    | .plain c => if eligibleFilter s.is3d c then [c] else [])

/-- The full candidate list `d`: eligible map layers, then the view's own
graphics collection when non-empty (`0 < h.graphics.length && d.push(h.graphics)`). -/
def buildCandidates (s : ShowState) : List LayerM :=
  eligibleLayers s ++
    (if s.viewGraphicsSource.ownGraphics.length > 0 then [s.viewGraphicsSource] else [])

/-- Line 164:
`(a && h.graphics.includes(a) ? a.popupTemplate : !a || g(a.layer)) || (a = null)`.
A forced feature from the view's graphics collection survives only with its
own popup template; any other forced feature survives only if its layer is
eligible. -/
def normalizeForced (s : ShowState) (f0 : Option ForcedM) : Option ForcedM :=
  match f0 with
  | none => none
  | some f =>
    if f.g ∈ s.viewGraphicsSource.ownGraphics then
      if f.g.popupTemplate then some f else none
    else if isEligible f.layer then some f else none

/-- The dispatched per-source promise array, before the forced-feature
prepend:  `if (e && !a || !e) var p = d.map(n).filter(a => !!a)` — with a
3D view and a forced feature nothing is dispatched and `p` keeps its
initial value `[]`. -/
def candidateSlots (s : ShowState) (f0 : Option ForcedM) : List Slot :=
  let a := normalizeForced s f0
  if (s.is3d && a.isNone) || !s.is3d then
    (buildCandidates s).filterMap (dispatch a)
  else []

/-- Line 223: prepend the forced feature — through `_fetchSceneAttributes`
for scene layers, as an already-resolved singleton when the graphic has its
own popup template, and not at all otherwise. -/
def prependForced (a : Option ForcedM) (p : List Slot) : List Slot :=
  match a with
  | none => p
  | some f =>
    match f.layer with
    | some l =>
      if l.ltype == .scene then fetchSceneAttributes l [f.g] :: p
      else if f.g.popupTemplate then
        { fulfilled := true, tSyncHere := false, result := some [f.g] } :: p
      else p
    | none =>
      if f.g.popupTemplate then
        { fulfilled := true, tSyncHere := false, result := some [f.g] } :: p
      else p

/-- The promise array handed to `y.open({promises: p, ...})`. -/
def openSlots (s : ShowState) (f0 : Option ForcedM) : List Slot :=
  prependForced (normalizeForced s f0) (candidateSlots s f0)

/-- The value of the flag `t` at decision time: `t = !!a`, raised
synchronously only by the local-graphics dispatches. -/
def tSync (s : ShowState) (f0 : Option ForcedM) : Bool :=
  (normalizeForced s f0).isSome || (candidateSlots s f0).any (·.tSyncHere)

/-- The externally observable outcome of one `_showPopup` call. -/
inductive ShowAction where
  | openPopup (slots : List Slot)
  | closePopup
  | nothing
deriving DecidableEq, Repr

/-- `_showPopup` (lines 126-233), reduced to its observable action:
with no eligible candidate and no forced feature, or with no map point,
`_closePopup()`; otherwise open when some promise is still pending or `t`
holds — and only when `p` is non-empty (`p.length && y.open(...)`). -/
def showPopup (s : ShowState) (f0 : Option ForcedM) : ShowAction :=
  let a := normalizeForced s f0
  let d := buildCandidates s
  if d.length > 0 || a.isSome then
    if s.mapPoint then
      let p := openSlots s f0
      if p.any (fun sl => !sl.fulfilled) || tSync s f0 then
        if p.length > 0 then .openPopup p else .nothing
      else .closePopup
    else .closePopup
  else .closePopup

/-- Modelled from the spec: the aggregation of the dispatched promises is
performed by the popup view model (`esri/widgets/Popup/PopupViewModel`),
whose source is not part of this repository.  Spec section 4.3 step 7:
"Await all dispatched operations (tolerant of individual failures — a
failed source contributes zero features, not an aggregate failure)", and
section 7: a SourceQueryFailure "contributes zero features, never surfaces
to the caller".  A rejected promise therefore contributes the empty list
and the aggregate always settles. -/
def aggregateFeatures (p : List Slot) : List GraphicM :=
  (p.map (fun sl => sl.result.getD [])).flatten

/-- Modelled from the spec: the aggregate resolution always settles (it is
never an aggregate failure), with the flattened per-source lists as its
value. -/
def aggregateSettles (p : List Slot) : Option (List GraphicM) :=
  some (aggregateFeatures p)

/-- Replace a rejected slot by one that resolves with zero features (used
to state that a rejection is equivalent to an empty contribution). -/
def emptyIfRejected (sl : Slot) : Slot :=
  if sl.result.isNone then { sl with result := some [] } else sl

/-! ## Placement engine (FloatPop.tsx) -/

/-- A screen point, with rational coordinates (the alignment math divides
the popup width by 2). -/
structure ScreenPt where
  x : Rat
  y : Rat
deriving DecidableEq, Repr

/-- The view padding. -/
structure PaddingM where
  left : Rat
  right : Rat
  top : Rat
  bottom : Rat
deriving DecidableEq, Repr

/-- The view geometry the placement code reads. -/
structure ViewM where
  width : Rat
  height : Rat
  padding : PaddingM
deriving DecidableEq, Repr

/-- The four sides `_isOutsideView` is asked about. -/
inductive Side where
  | left
  | right
  | top
  | bottom
deriving DecidableEq, Repr

/-- The six floating alignments. -/
inductive Alignment where
  | topLeft
  | topCenter
  | topRight
  | bottomLeft
  | bottomCenter
  | bottomRight
deriving DecidableEq, Repr

/-- `_isScreenLocationWithinView` (FloatPop.tsx lines 1824-1829). -/
def isScreenLocationWithinView (s : ScreenPt) (v : ViewM) : Bool :=
  s.x > -1 && s.y > -1 && s.x ≤ v.width && s.y ≤ v.height

/-- `_isOutsideView` (lines 1831-1857).  The dimensions are `Option`s:
`none` models NaN (`isNaN(popupWidth) || isNaN(popupHeight)` returns
false), and a missing view or screen location also yields false. -/
def isOutsideView (popupHeight popupWidth : Option Rat) (screenLocation : Option ScreenPt)
    (side : Side) (view : Option ViewM) : Bool :=
  match popupWidth, popupHeight, view, screenLocation with
  | some pw, some ph, some v, some s =>
    match side with
    | .right => s.x + pw / 2 > v.width - v.padding.right
    | .left => s.x - pw / 2 < v.padding.left
    | .top => s.y - ph < v.padding.top
    | .bottom => s.y + ph > v.height - v.padding.bottom
  | _, _, _, _ => false

/-- The rendered footprint computed at lines 1893-1895:
`popupWidth = contentBox.w + pointerOffset` and
`popupHeight = max(contentBox.h, contentMaxHeight, contentHeight) + pointerOffset`.
A `none` content box models an unmeasured container (NaN dimensions). -/
def popupDims (contentBox : Option (Rat × Rat)) (contentMaxHeight contentHeight pointerOffset : Rat) :
    Option (Rat × Rat) :=
  contentBox.map (fun wh =>
    (wh.1 + pointerOffset, max (max wh.2 contentMaxHeight) contentHeight + pointerOffset))

/-- `_determineCurrentAlignment` (lines 1859-1942): `"top-center"` without
a screen location, view, or container node; the previously computed
alignment (default `"top-center"`) when the anchor is outside the view;
otherwise the overflow decision tree. -/
def determineCurrentAlignment (prev : Option Alignment) (screenLocation : Option ScreenPt)
    (view : Option ViewM) (hasContainer : Bool) (dims : Option (Rat × Rat)) : Alignment :=
  match screenLocation, view, hasContainer with
  | some s, some v, true =>
    if !isScreenLocationWithinView s v then prev.getD .topCenter
    else
      let pw := dims.map Prod.fst
      let ph := dims.map Prod.snd
      let oLeft := isOutsideView ph pw (some s) .left (some v)
      let oRight := isOutsideView ph pw (some s) .right (some v)
      let oTop := isOutsideView ph pw (some s) .top (some v)
      let oBottom := isOutsideView ph pw (some s) .bottom (some v)
      if oLeft then
        if oTop then .bottomRight else .topRight
      else if oRight then
        if oTop then .bottomLeft else .topLeft
      else if oTop then
        if oBottom then .topCenter else .bottomCenter
      else .topCenter
  | _, _, _ => .topCenter

/-! ## Dock position and dock/breakpoint monitor (FloatPop.tsx) -/

/-- The six dock positions. -/
inductive DockPosition where
  | topLeft
  | topCenter
  | topRight
  | bottomLeft
  | bottomCenter
  | bottomRight
deriving DecidableEq, Repr

/-- The configured `alignment` property: `"auto"` or a fixed value (a
user-supplied alignment function is modelled by the alignment value it
returns). -/
inductive AlignSetting where
  | auto
  | fixed (a : Alignment)
deriving DecidableEq, Repr

/-- The configured `dockOptions.position`: `"auto"` or a fixed value (a
position function is modelled by its returned value). -/
inductive DockPosSetting where
  | auto
  | fixed (p : DockPosition)
deriving DecidableEq, Repr

/-- `_determineCurrentDockPosition` (lines 2034-2051): top-right (top-left
in right-to-left locales) by default; bottom-center when the view's
padding-excluded width is at or below the `xsmall` breakpoint. -/
def determineCurrentDockPosition (view : Option ViewM) (isRtl : Bool)
    (breakpointsXSmall : Option Rat) : DockPosition :=
  let dflt : DockPosition := if isRtl then .topLeft else .topRight
  match view with
  | none => dflt
  | some v =>
    match breakpointsXSmall with
    | some xs =>
      if v.width - v.padding.left - v.padding.right ≤ xs then .bottomCenter else dflt
    | none => dflt

/-- `_getDockPosition` (lines 1967-1975). -/
def getDockPosition (setting : DockPosSetting) (view : Option ViewM) (isRtl : Bool)
    (breakpointsXSmall : Option Rat) : DockPosition :=
  match setting with
  | .auto => determineCurrentDockPosition view isRtl breakpointsXSmall
  | .fixed p => p

/-- `_getCurrentAlignment` (lines 1944-1957): `null` when docked, the
configured or determined alignment otherwise. -/
def getCurrentAlignment (dockEnabled : Bool) (setting : AlignSetting)
    (prev : Option Alignment) (screenLocation : Option ScreenPt) (view : Option ViewM)
    (hasContainer : Bool) (dims : Option (Rat × Rat)) : Option Alignment :=
  if dockEnabled then none
  else
    some (match setting with
      | .auto => determineCurrentAlignment prev screenLocation view hasContainer dims
      | .fixed a => a)

/-- `_getCurrentDockPosition` (lines 1977-1979): the dock position when
docked, `null` otherwise. -/
def getCurrentDockPosition (dockEnabled : Bool) (setting : DockPosSetting)
    (view : Option ViewM) (isRtl : Bool) (breakpointsXSmall : Option Rat) : Option DockPosition :=
  if dockEnabled then some (getDockPosition setting view isRtl breakpointsXSmall) else none

/-- A configured dock breakpoint; `none` models an absent `width`/`height`
property, for which every JS comparison against the threshold is false. -/
structure BreakpointM where
  width : Option Int
  height : Option Int
deriving DecidableEq, Repr

/-- Integer view padding, as used by the dock-size computations. -/
structure PadI where
  left : Int
  right : Int
  top : Int
  bottom : Int
deriving DecidableEq, Repr

/-- `currSize <= threshold` with an absent threshold being false. -/
def leThreshold (cur : Int) (bp : Option Int) : Bool :=
  match bp with
  | some w => cur ≤ w
  | none => false

/-- `currSize > threshold` with an absent threshold being false. -/
def gtThreshold (cur : Int) (bp : Option Int) : Bool :=
  match bp with
  | some w => cur > w
  | none => false

/-- `_dockingThresholdCrossed` (lines 2263-2272): a crossing of the width
or height threshold, in either direction. -/
def dockingThresholdCrossed (newSize oldSize : Int × Int) (bp : BreakpointM) : Bool :=
  (leThreshold newSize.1 bp.width && gtThreshold oldSize.1 bp.width) ||
    (gtThreshold newSize.1 bp.width && leThreshold oldSize.1 bp.width) ||
    (leThreshold newSize.2 bp.height && gtThreshold oldSize.2 bp.height) ||
    (gtThreshold newSize.2 bp.height && leThreshold oldSize.2 bp.height)

/-- `_shouldDockAtCurrentViewSize` (lines 2339-2351) on the view's UI
(padding-excluded) size: at or below either configured threshold. -/
def shouldDockAtCurrentViewSize (bp : BreakpointM) (ui : Int × Int) : Bool :=
  leThreshold ui.1 bp.width || leThreshold ui.2 bp.height

/-- The padding-excluded size computed at lines 2279-2287. -/
def uiSize (size : Int × Int) (pad : PadI) : Int × Int :=
  (size.1 - (pad.left + pad.right), size.2 - (pad.top + pad.bottom))

/-- `_updateDockEnabledForViewSize` (lines 2274-2299) together with
`_setDockEnabledForViewSize` (lines 2353-2357): when the padding-excluded
sizes cross the configured breakpoint, replace `dockEnabled` by
`_shouldDockAtCurrentViewSize`, which reads the view's UI size `ui`
(the breakpoint is always configured: the `dockOptions` setter mixes the
defaults, whose breakpoint is `{width: 544}`, into any assigned value). -/
def updateDockEnabledForViewSize (dockEnabled : Bool) (newSize oldSize : Int × Int)
    (pad : PadI) (bp : BreakpointM) (ui : Int × Int) : Bool :=
  if dockingThresholdCrossed (uiSize newSize pad) (uiSize oldSize pad) bp then
    shouldDockAtCurrentViewSize bp ui
  else dockEnabled

/-! ## Popup instances and superseding (FloatPopManager.ts) -/

/-- One `FloatPop` widget instance: `_showPopup` constructs a fresh one per
click (line 146, `y = new FloatPop({...})`), hands it the click's promise
array (`y.open({promises: p, ...})`, line 225) and adds it to the
`floatpops` collection.  `displayed` is the feature set its own view model
shows once its own promises settle. -/
structure PopupInstance where
  pid : Nat
  slots : List Slot
  displayed : Option (List GraphicM)
deriving DecidableEq, Repr

/-- The manager state observable through `floatpops`; `nextId` generates
fresh instance identities. -/
structure ManagerState where
  floatpops : List PopupInstance
  nextId : Nat
deriving DecidableEq, Repr

/-- The effect of the `_showPopup` open path on the manager state: a fresh
`FloatPop` bound to the resolution's promise array is appended
(`r.floatpops.add(y)`, line 225). -/
def openNewPopup (st : ManagerState) (p : List Slot) : ManagerState :=
  { floatpops := st.floatpops ++ [{ pid := st.nextId, slots := p, displayed := none }],
    nextId := st.nextId + 1 }

/-- The settlement of one resolution: the promises handed to a widget at
`open` are owned by that widget's view model alone, so their settlement
writes the aggregated feature set into exactly the instance they were
bound to. -/
def settleResolution (st : ManagerState) (rid : Nat) : ManagerState :=
  { st with
    floatpops := st.floatpops.map (fun pop =>
      if pop.pid == rid then { pop with displayed := some (aggregateFeatures pop.slots) }
      else pop) }

/-- The feature set displayed by the instance with identity `rid`. -/
def displayedOf (st : ManagerState) (rid : Nat) : Option (List GraphicM) :=
  match st.floatpops.find? (fun pop => pop.pid == rid) with
  | some pop => pop.displayed
  | none => none

/-! ## Click handler (`_clickHandler`, lines 274-302) -/

/-- The asynchronous continuation the click handler launches. -/
inductive ClickAction where
  | noAction
  | hitTestThenResolve
  | directShow
deriving DecidableEq, Repr

/-- `_clickHandler`: guarded by `0 === b.button && f.popup && f.ready`;
inside, a non-null screen point leads to `view.hitTest(...)` whose
continuation resolves via `_showPopup`/`_closePopup`, and a null screen
point calls `_showPopup(b)` directly.  The manager state is returned
unchanged in every branch — the handler itself mutates nothing. -/
def clickHandler (button : Nat) (screenPoint : Option ScreenPt) (hasPopupContainer viewReady : Bool)
    (st : ManagerState) : ManagerState × ClickAction :=
  if button == 0 && hasPopupContainer && viewReady then
    match screenPoint with
    | some _ => (st, .hitTestThenResolve)
    | none => (st, .directShow)
  else (st, .noAction)

/-! ## Derived notions used in the statements -/

/-- The "always queryable" kinds of the eligibility rule: raw graphics
collections, geo-feed, annotation/map-notes, KML. -/
def alwaysQueryableKind (t : LType) : Bool :=
  t == .graphics || t == .geoRss || t == .mapNotes || t == .kml

/-- Whether `dispatch` sends a source through the `queryFeatures` spatial
query branch (the final `else` of the inner function `n`). -/
def usesQueryFeaturesPath (c : LayerM) : Bool :=
  !(c.ltype == .imagery) && !(c.ltype == .csv || (!c.cached && !c.hasQueryFeatures))

/-- The features one source eventually contributes to the aggregate. -/
def contribution (a : Option ForcedM) (c : LayerM) : List GraphicM :=
  match dispatch a c with
  | some sl => sl.result.getD []
  | none => []

/-- The condition under which the `queryFeatures` branch deduplicates
against the forced feature: same layer, a unique identifier field, and the
spatial-query path. -/
def dedupApplies (f : ForcedM) (c : LayerM) : Bool :=
  (match f.layer with
   | some l => l.lid == c.lid
   | none => false) && c.objectIdField && usesQueryFeaturesPath c

/-- Maximum of a list of integers, seeded with 0. -/
def listMax (l : List Int) : Int :=
  l.foldl max 0

/-! ## Concrete instances used by witnesses and counterexamples -/

/-- A plain, unsuspended layer view with no extra capabilities. -/
def lvPlain : LayerViewM :=
  { suspended := false, getPopupData := false, hasDraped := false,
    graphics3DIds := none, loadedGraphics := none }

/-- A spatially returned feature sharing the forced feature's identifier. -/
def gDup : GraphicM :=
  { gid := 1, oid := 7, popupTemplate := false, visible := true, inExtent := true }

/-- A spatially returned feature with a different identifier. -/
def gOther : GraphicM :=
  { gid := 2, oid := 8, popupTemplate := false, visible := true, inExtent := true }

/-- A forced feature without its own popup template, identifier 7. -/
def gForced : GraphicM :=
  { gid := 10, oid := 7, popupTemplate := false, visible := true, inExtent := true }

/-- A forced feature carrying its own popup template, identifier 7. -/
def gForcedT : GraphicM :=
  { gid := 11, oid := 7, popupTemplate := true, visible := true, inExtent := true }

/-- An eligible feature layer with a unique identifier field whose spatial
query returns `gDup` and `gOther`. -/
def featLayer : LayerM :=
  { lid := 1, loaded := true, popupTemplate := true, ltype := .feature,
    hasQueryFeatures := true, cached := false, isGraphicCollection := false,
    objectIdField := true, ownGraphics := [], queryResult := some [gDup, gOther],
    view := some lvPlain }

/-- An empty `view.graphics` collection (never pushed into the candidates). -/
def emptyGraphicsSource : LayerM :=
  { lid := 99, loaded := true, popupTemplate := false, ltype := .other,
    hasQueryFeatures := false, cached := false, isGraphicCollection := true,
    objectIdField := false, ownGraphics := [], queryResult := none,
    view := none }

/-- A 2D state with the single eligible `featLayer`, a map point present. -/
def stateWithPoint : ShowState :=
  { is3d := false, topLayers := [.plain featLayer],
    viewGraphicsSource := emptyGraphicsSource, mapPoint := true }

/-- The same state with a click that carries no map point. -/
def stateNoPoint : ShowState :=
  { is3d := false, topLayers := [.plain featLayer],
    viewGraphicsSource := emptyGraphicsSource, mapPoint := false }

/-- The forced feature of the duplicate scenario, owned by `featLayer`,
without its own popup template. -/
def forcedNoTpl : ForcedM :=
  { g := gForced, layer := some featLayer }

/-- The forced feature of the duplicate scenario, owned by `featLayer`,
with its own popup template. -/
def forcedWithTpl : ForcedM :=
  { g := gForcedT, layer := some featLayer }

/-- A loaded map-image layer without a popup template whose layer view
exposes `getPopupData`. -/
def mapImageLayer : LayerM :=
  { lid := 3, loaded := true, popupTemplate := false, ltype := .mapImage,
    hasQueryFeatures := false, cached := false, isGraphicCollection := false,
    objectIdField := false, ownGraphics := [], queryResult := some [],
    view := some { suspended := false, getPopupData := true, hasDraped := false,
                   graphics3DIds := none, loadedGraphics := none } }

/-- A feature layer whose spatial query rejects. -/
def rejectingLayer : LayerM :=
  { lid := 5, loaded := true, popupTemplate := true, ltype := .feature,
    hasQueryFeatures := true, cached := false, isGraphicCollection := false,
    objectIdField := false, ownGraphics := [], queryResult := none,
    view := some lvPlain }

/-- A 2D state whose only eligible source has a rejecting query. -/
def stateRejecting : ShowState :=
  { is3d := false, topLayers := [.plain rejectingLayer],
    viewGraphicsSource := emptyGraphicsSource, mapPoint := true }

/-- A loaded feature layer with neither a popup template nor any other
popup capability. -/
def plainIneligibleLayer : LayerM :=
  { lid := 7, loaded := true, popupTemplate := false, ltype := .feature,
    hasQueryFeatures := true, cached := false, isGraphicCollection := false,
    objectIdField := true, ownGraphics := [], queryResult := some [],
    view := some lvPlain }

/-! ## Lemmas about the tolerance fold -/

theorem le_foldl_max (l : List Int) (b : Int) : b ≤ l.foldl max b := by
  induction l generalizing b with
  | nil => exact le_refl b
  | cons x xs ih => exact le_trans (le_max_left b x) (ih (max b x))

theorem foldl_max_max (l : List Int) (a b : Int) :
    l.foldl max (max a b) = max a (l.foldl max b) := by
  induction l generalizing b with
  | nil => rfl
  | cons x xs ih =>
    show xs.foldl max (max (max a b) x) = max a ((x :: xs).foldl max b)
    rw [max_assoc, ih (max b x)]
    rfl

theorem listMax_nonneg (l : List Int) : 0 ≤ listMax l :=
  le_foldl_max l 0

theorem listMax_append (l1 l2 : List Int) :
    listMax (l1 ++ l2) = max (listMax l1) (listMax l2) := by
  have h := foldl_max_max l2 (listMax l1) 0
  rw [max_eq_left (listMax_nonneg l1)] at h
  unfold listMax at *
  rw [List.foldl_append]
  exact h

theorem le_stepSym (a : Int) (s : Option SymbolM) : a ≤ stepSym a s := by
  unfold stepSym
  cases s with
  | none => exact le_refl a
  | some s =>
    dsimp only
    by_cases hx : s.xoffset = 0 <;> by_cases hy : s.yoffset = 0 <;>
      simp only [hx, hy, if_pos, if_neg, ne_eq, not_true_eq_false, not_false_eq_true,
        ite_true, ite_false] <;>
      first
        | exact le_refl a
        | exact le_max_left a _
        | exact le_trans (le_max_left a _) (le_max_left _ _)

theorem stepSym_eq (a : Int) (h : 0 ≤ a) (s : Option SymbolM) :
    stepSym a s = max a (listMax (symOffsets s)) := by
  unfold stepSym symOffsets
  cases s with
  | none => simp [listMax, max_eq_left h]
  | some s =>
    dsimp only
    by_cases hx : s.xoffset = 0 <;> by_cases hy : s.yoffset = 0 <;>
      simp only [hx, hy, ne_eq, not_true_eq_false, not_false_eq_true, ite_true, ite_false,
        List.nil_append, List.append_nil, listMax, List.foldl_cons, List.foldl_nil]
    · rw [max_eq_left h]
    · rw [max_eq_right (abs_nonneg s.yoffset)]
    · rw [max_eq_right (abs_nonneg s.xoffset)]
    · rw [List.singleton_append, List.foldl_cons, List.foldl_cons, List.foldl_nil,
        max_eq_right (abs_nonneg s.xoffset), max_assoc]

theorem le_foldl_stepSym (infos : List (Option SymbolM)) (a : Int) :
    a ≤ infos.foldl stepSym a := by
  induction infos generalizing a with
  | nil => exact le_refl a
  | cons i is ih => exact le_trans (le_stepSym a i) (ih (stepSym a i))

theorem foldl_stepSym_eq (infos : List (Option SymbolM)) (a : Int) (h : 0 ≤ a) :
    infos.foldl stepSym a = max a (listMax ((infos.map symOffsets).flatten)) := by
  induction infos generalizing a with
  | nil => simp [listMax, max_eq_left h]
  | cons i is ih =>
    show is.foldl stepSym (stepSym a i) = _
    rw [ih (stepSym a i) (le_trans h (le_stepSym a i)), stepSym_eq a h i,
      List.map_cons, List.flatten_cons, listMax_append, max_assoc]

theorem le_stepSource (a : Int) (c : RSource) : a ≤ stepSource a c := by
  unfold stepSource
  cases hr : c.renderer with
  | none => exact le_refl a
  | some r =>
    cases r with
    | simple s => exact le_stepSym a s
    | uniqueValue infos => exact le_foldl_stepSym infos a
    | classBreaks infos => exact le_foldl_stepSym infos a
    | other => exact le_refl a

theorem stepSource_eq (a : Int) (h : 0 ≤ a) (c : RSource) :
    stepSource a c = max a (listMax (sourceOffsets c)) := by
  unfold stepSource sourceOffsets
  cases hr : c.renderer with
  | none => simp [listMax, max_eq_left h]
  | some r =>
    cases r with
    | simple s => exact stepSym_eq a h s
    | uniqueValue infos => exact foldl_stepSym_eq infos a h
    | classBreaks infos => exact foldl_stepSym_eq infos a h
    | other => simp [listMax, max_eq_left h]

theorem foldl_stepSource_eq (sources : List RSource) (a : Int) (h : 0 ≤ a) :
    sources.foldl stepSource a = max a (listMax ((sources.map sourceOffsets).flatten)) := by
  induction sources generalizing a with
  | nil => simp [listMax, max_eq_left h]
  | cons c cs ih =>
    show cs.foldl stepSource (stepSource a c) = _
    rw [ih (stepSource a c) (le_trans h (le_stepSource a c)), stepSource_eq a h c,
      List.map_cons, List.flatten_cons, listMax_append, max_assoc]

theorem calculateClickTolerance_eq (sources : List RSource) :
    calculateClickTolerance sources = max 6 (maxOffset sources) :=
  foldl_stepSource_eq sources 6 (by norm_num)

/-- C8: the computed click tolerance is at least the 6-pixel baseline, and
is monotonic in the maximum absolute symbol x/y offset discovered across
the sources' renderers: increasing that maximum never decreases the
result. -/
theorem c8_tolerance_baseline_and_monotone :
    (∀ sources : List RSource, 6 ≤ calculateClickTolerance sources) ∧
    (∀ s1 s2 : List RSource, maxOffset s1 ≤ maxOffset s2 →
      calculateClickTolerance s1 ≤ calculateClickTolerance s2) := by
  constructor
  · intro sources
    rw [calculateClickTolerance_eq]
    exact le_max_left 6 (maxOffset sources)
  · intro s1 s2 h
    rw [calculateClickTolerance_eq, calculateClickTolerance_eq]
    exact max_le_max (le_refl 6) h

/-- Witness for C8 at concrete inputs: the empty source list against a
single source whose simple-renderer symbol is offset by (-9, 2). -/
theorem c8_tolerance_witness :
    6 ≤ calculateClickTolerance [] ∧
    maxOffset [] ≤ maxOffset [⟨some (.simple (some ⟨-9, 2⟩))⟩] ∧
    calculateClickTolerance [] ≤ calculateClickTolerance [⟨some (.simple (some ⟨-9, 2⟩))⟩] :=
  ⟨c8_tolerance_baseline_and_monotone.1 [],
    by decide,
    c8_tolerance_baseline_and_monotone.2 [] [⟨some (.simple (some ⟨-9, 2⟩))⟩] (by decide)⟩

/-! ## C5: eligibility of template-less sources -/

/-- C5 counterexample: `mapImageLayer` has no popup template and is not of
an always-queryable kind, yet `isEligible` returns true (its layer view
exposes `getPopupData`) and it is dispatched a query, refuting the claim
that such a source is never queried. -/
theorem c5_counterexample :
    mapImageLayer.popupTemplate = false ∧
    alwaysQueryableKind mapImageLayer.ltype = false ∧
    isEligible (some mapImageLayer) = true ∧
    (dispatch none mapImageLayer).isSome = true := by decide

/-- C5 amended: a source with no popup template, not of an always-queryable
kind, and whose live view-layer binding does not expose `getPopupData`, is
classified ineligible and never appears among the queried candidates. -/
theorem c5_amended_ineligible_never_queried (c : LayerM)
    (h1 : c.popupTemplate = false)
    (h2 : alwaysQueryableKind c.ltype = false)
    (h3 : ∀ v, c.view = some v → v.getPopupData = false) :
    isEligible (some c) = false ∧ ∀ s : ShowState, c ∉ eligibleLayers s := by
  have helig : isEligible (some c) = false := by
    unfold isEligible
    cases hv : c.view with
    | none => simp [hv]
    | some v =>
      have hg := h3 v hv
      simp only [alwaysQueryableKind, Bool.or_eq_false_iff] at h2
      simp [hv, h1, hg, h2.1.1.1, h2.1.1.2, h2.1.2, h2.2]
  refine ⟨helig, ?_⟩
  intro s hmem
  have hfil : eligibleFilter s.is3d c = true := by
    unfold eligibleLayers at hmem
    rcases List.mem_flatMap.mp hmem with ⟨tl, _, hin⟩
    cases tl with
    | group ms => exact (List.mem_filter.mp hin).2
    | plain c2 =>
      dsimp only at hin
      by_cases hb : eligibleFilter s.is3d c2 = true
      · rw [if_pos hb] at hin
        have hc : c = c2 := by simpa using hin
        rw [hc]
        exact hb
      · rw [if_neg hb] at hin
        simp at hin
  unfold eligibleFilter at hfil
  rw [helig] at hfil
  simp at hfil

/-- Witness for the amended C5 at a concrete layer: a loaded feature layer
with no popup template and no popup-data capability is ineligible and never
among the candidates. -/
theorem c5_amended_witness :
    isEligible (some plainIneligibleLayer) = false ∧
    ∀ s : ShowState, plainIneligibleLayer ∉ eligibleLayers s :=
  c5_amended_ineligible_never_queried plainIneligibleLayer (by decide) (by decide)
    (by
      intro v hv
      have h : lvPlain = v := by simpa [plainIneligibleLayer] using hv
      rw [← h]
      decide)

/-! ## C3: clicks with no map point -/

/-- C3 counterexample: a click with no map point but a validly forced
feature (surviving the line-164 normalization) still results in
`_closePopup()` — the forced feature does not seed a result and no popup
opens, contradicting the claim. -/
theorem c3_counterexample :
    normalizeForced stateNoPoint (some forcedWithTpl) = some forcedWithTpl ∧
    showPopup stateNoPoint (some forcedWithTpl) = ShowAction.closePopup := by decide

/-- C3 amended: every click that carries no map point skips all per-source
querying and closes the popup, whether or not a forced feature was
supplied. -/
theorem c3_amended_no_mappoint_closes (s : ShowState) (f0 : Option ForcedM)
    (h : s.mapPoint = false) :
    showPopup s f0 = ShowAction.closePopup := by
  unfold showPopup
  simp [h]

/-- Witness for the amended C3: the concrete no-map-point state with a
forced feature closes the popup. -/
theorem c3_amended_witness :
    showPopup stateNoPoint (some forcedWithTpl) = ShowAction.closePopup :=
  c3_amended_no_mappoint_closes stateNoPoint (some forcedWithTpl) (by decide)

/-! ## C9: alignment and dock position are mutually exclusive -/

/-- C9: in every state, `_getCurrentAlignment` is `null` exactly when
`dockEnabled` is true, and `_getCurrentDockPosition` is `null` exactly when
`dockEnabled` is false. -/
theorem c9_alignment_dock_mutually_exclusive (dockEnabled : Bool)
    (aset : AlignSetting) (prev : Option Alignment) (screenLocation : Option ScreenPt)
    (view : Option ViewM) (hasContainer : Bool) (dims : Option (Rat × Rat))
    (dset : DockPosSetting) (isRtl : Bool) (xsmall : Option Rat) :
    (getCurrentAlignment dockEnabled aset prev screenLocation view hasContainer dims = none ↔
      dockEnabled = true) ∧
    (getCurrentDockPosition dockEnabled dset view isRtl xsmall = none ↔
      dockEnabled = false) := by
  cases dockEnabled <;> simp [getCurrentAlignment, getCurrentDockPosition]

/-! ## C10: the click-handler guard -/

/-- C10: a click whose button is not the primary one, or delivered while
the view is not ready or has no popup container, performs no hit test,
starts no resolution, and leaves the manager state unchanged. -/
theorem c10_click_guard (button : Nat) (screenPoint : Option ScreenPt)
    (hasPopupContainer viewReady : Bool) (st : ManagerState)
    (h : button ≠ 0 ∨ hasPopupContainer = false ∨ viewReady = false) :
    clickHandler button screenPoint hasPopupContainer viewReady st = (st, ClickAction.noAction) := by
  unfold clickHandler
  have hguard : (button == 0 && hasPopupContainer && viewReady) = false := by
    rcases h with h | h | h
    · simp [h]
    · simp [h]
    · simp [h]
  rw [hguard]
  simp

/-- Witness for C10: a right-button click (button 2) on a ready view leaves
an empty manager state untouched. -/
theorem c10_click_guard_witness :
    clickHandler 2 none true true ⟨[], 0⟩ = (⟨[], 0⟩, ClickAction.noAction) :=
  c10_click_guard 2 none true true ⟨[], 0⟩ (Or.inl (by decide))

/-! ## C7: breakpoint-crossing symmetry -/

theorem crossed_of_shouldDock_ne (bp : BreakpointM) (u u' : Int × Int)
    (h : shouldDockAtCurrentViewSize bp u = false)
    (h' : shouldDockAtCurrentViewSize bp u' = true) :
    dockingThresholdCrossed u' u bp = true ∧ dockingThresholdCrossed u u' bp = true := by
  unfold shouldDockAtCurrentViewSize at h h'
  unfold dockingThresholdCrossed
  cases hbw : bp.width <;> cases hbh : bp.height <;>
    simp [leThreshold, gtThreshold, hbw, hbh] at h h' ⊢ <;> omega

/-- C7: for every configured breakpoint and every pair of viewport sizes on
opposite sides of the threshold region (in terms of their padding-excluded
UI sizes), resizing across the threshold sets `dockEnabled`, and resizing
back clears it — the two crossings produce inverse dock-state
transitions. -/
theorem c7_breakpoint_crossing_symmetric (bp : BreakpointM) (n1 n2 : Int × Int) (pad : PadI)
    (h1 : shouldDockAtCurrentViewSize bp (uiSize n1 pad) = false)
    (h2 : shouldDockAtCurrentViewSize bp (uiSize n2 pad) = true) :
    updateDockEnabledForViewSize false n2 n1 pad bp (uiSize n2 pad) = true ∧
    updateDockEnabledForViewSize true n1 n2 pad bp (uiSize n1 pad) = false := by
  have hc := crossed_of_shouldDock_ne bp (uiSize n1 pad) (uiSize n2 pad) h1 h2
  unfold updateDockEnabledForViewSize
  rw [hc.1, hc.2]
  simp [h1, h2]

/-- Witness for C7 at the spec's example: width 600 → 500 with breakpoint
width 544 flips Floating to Docked, and returning to 600 flips it back. -/
theorem c7_breakpoint_witness :
    updateDockEnabledForViewSize false (500, 400) (600, 400) ⟨0, 0, 0, 0⟩ ⟨some 544, none⟩
        (uiSize (500, 400) ⟨0, 0, 0, 0⟩) = true ∧
    updateDockEnabledForViewSize true (600, 400) (500, 400) ⟨0, 0, 0, 0⟩ ⟨some 544, none⟩
        (uiSize (600, 400) ⟨0, 0, 0, 0⟩) = false :=
  c7_breakpoint_crossing_symmetric ⟨some 544, none⟩ (600, 400) (500, 400) ⟨0, 0, 0, 0⟩
    (by decide) (by decide)

/-! ## C6: alignment overflow-combination rules -/

/-- C6: for an anchor inside the viewport with a measured content box, the
computed alignment follows the overflow-combination rules: left overflow
yields top-right or bottom-right depending on top overflow; right overflow
alone yields a left-shifted alignment and never a right-shifted one;
simultaneous top and bottom overflow yields top-center; and no overflow
yields top-center. -/
theorem c6_alignment_overflow_rules (prev : Option Alignment) (s : ScreenPt) (v : ViewM)
    (pw ph : Rat) (hin : isScreenLocationWithinView s v = true) :
    (isOutsideView (some ph) (some pw) (some s) .left (some v) = true →
      determineCurrentAlignment prev (some s) (some v) true (some (pw, ph)) =
        (if isOutsideView (some ph) (some pw) (some s) .top (some v) then
          Alignment.bottomRight else Alignment.topRight)) ∧
    (isOutsideView (some ph) (some pw) (some s) .left (some v) = false →
      isOutsideView (some ph) (some pw) (some s) .right (some v) = true →
      (determineCurrentAlignment prev (some s) (some v) true (some (pw, ph)) = Alignment.topLeft ∨
        determineCurrentAlignment prev (some s) (some v) true (some (pw, ph)) = Alignment.bottomLeft)) ∧
    (isOutsideView (some ph) (some pw) (some s) .left (some v) = false →
      isOutsideView (some ph) (some pw) (some s) .right (some v) = false →
      isOutsideView (some ph) (some pw) (some s) .top (some v) = true →
      isOutsideView (some ph) (some pw) (some s) .bottom (some v) = true →
      determineCurrentAlignment prev (some s) (some v) true (some (pw, ph)) = Alignment.topCenter) ∧
    (isOutsideView (some ph) (some pw) (some s) .left (some v) = false →
      isOutsideView (some ph) (some pw) (some s) .right (some v) = false →
      isOutsideView (some ph) (some pw) (some s) .top (some v) = false →
      isOutsideView (some ph) (some pw) (some s) .bottom (some v) = false →
      determineCurrentAlignment prev (some s) (some v) true (some (pw, ph)) = Alignment.topCenter) := by
  refine ⟨?_, ?_, ?_, ?_⟩
  · intro hL
    by_cases hT : isOutsideView (some ph) (some pw) (some s) .top (some v) = true
    · simp [determineCurrentAlignment, hin, hL, hT]
    · simp only [Bool.not_eq_true] at hT
      simp [determineCurrentAlignment, hin, hL, hT]
  · intro hL hR
    by_cases hT : isOutsideView (some ph) (some pw) (some s) .top (some v) = true
    · right
      simp [determineCurrentAlignment, hin, hL, hR, hT]
    · left
      simp only [Bool.not_eq_true] at hT
      simp [determineCurrentAlignment, hin, hL, hR, hT]
  · intro hL hR hT hB
    simp [determineCurrentAlignment, hin, hL, hR, hT, hB]
  · intro hL hR hT hB
    simp [determineCurrentAlignment, hin, hL, hR, hT, hB]

/-- Witness for C6 at concrete numbers: a 100 × 50 footprint anchored at
(200, 150) in a 400 × 300 unpadded view overflows nowhere and aligns
top-center. -/
theorem c6_alignment_witness :
    determineCurrentAlignment none (some ⟨200, 150⟩) (some ⟨400, 300, ⟨0, 0, 0, 0⟩⟩) true
      (some (100, 50)) = Alignment.topCenter :=
  (c6_alignment_overflow_rules none ⟨200, 150⟩ ⟨400, 300, ⟨0, 0, 0, 0⟩⟩ 100 50
      (by norm_num [isScreenLocationWithinView])).2.2.2
    (by norm_num [isOutsideView]) (by norm_num [isOutsideView])
    (by norm_num [isOutsideView]) (by norm_num [isOutsideView])

/-! ## C2: rejected per-source queries are swallowed -/

theorem dispatch_rejected_not_fulfilled (a : Option ForcedM) (c : LayerM) (sl : Slot)
    (hd : dispatch a c = some sl) (hr : sl.result = none) : sl.fulfilled = false := by
  unfold dispatch at hd
  by_cases h1 : (c.ltype == LType.imagery) = true
  · rw [if_pos h1] at hd
    injection hd with h
    rw [← h]
  · rw [if_neg h1] at hd
    by_cases h2 : (c.ltype == LType.csv || (!c.cached && !c.hasQueryFeatures)) = true
    · rw [if_pos h2] at hd
      by_cases h3 : (c.ltype == LType.mapImage || c.ltype == LType.wms) = true
      · rw [if_pos h3] at hd
        injection hd with h
        rw [← h]
      · rw [if_neg h3] at hd
        by_cases h4 : (localMatches c).length > 0
        · rw [if_pos h4] at hd
          by_cases h5 : (c.ltype == LType.scene) = true
          · rw [if_pos h5] at hd
            injection hd with h
            rw [← h]
            rfl
          · rw [if_neg h5] at hd
            injection hd with h
            rw [← h] at hr
            simp at hr
        · rw [if_neg h4] at hd
          cases hd
    · rw [if_neg h2] at hd
      injection hd with h
      rw [← h]

theorem mem_prependForced (a : Option ForcedM) (p : List Slot) (sl : Slot) (h : sl ∈ p) :
    sl ∈ prependForced a p := by
  unfold prependForced
  cases a with
  | none => exact h
  | some f =>
    cases hl : f.layer with
    | some l =>
      simp only [hl]
      by_cases hs : (l.ltype == LType.scene) = true
      · rw [if_pos hs]
        exact List.mem_cons_of_mem _ h
      · rw [if_neg hs]
        by_cases ht : f.g.popupTemplate = true
        · rw [if_pos ht]
          exact List.mem_cons_of_mem _ h
        · rw [if_neg ht]
          exact h
    | none =>
      simp only [hl]
      by_cases ht : f.g.popupTemplate = true
      · rw [if_pos ht]
        exact List.mem_cons_of_mem _ h
      · rw [if_neg ht]
        exact h

theorem aggregate_emptyIfRejected (p : List Slot) :
    aggregateFeatures p = aggregateFeatures (p.map emptyIfRejected) := by
  unfold aggregateFeatures
  rw [List.map_map]
  congr 1
  apply List.map_congr_left
  intro sl _
  unfold emptyIfRejected
  cases hres : sl.result <;> simp [hres]

/-- C2: if any dispatched per-source query rejects, the rejection is
swallowed — the aggregate resolution still settles, with the rejected
source contributing exactly what an empty resolution would, and the popup
does not fail to open (it is opened on the pending promise array, so the
only close paths require no source yielding features and no forced
feature). -/
theorem c2_rejection_swallowed (s : ShowState) (f0 : Option ForcedM)
    (hmp : s.mapPoint = true)
    (hrej : ∃ sl ∈ candidateSlots s f0, sl.result = none) :
    showPopup s f0 = ShowAction.openPopup (openSlots s f0) ∧
    aggregateSettles (openSlots s f0) = some (aggregateFeatures (openSlots s f0)) ∧
    aggregateFeatures (openSlots s f0) =
      aggregateFeatures ((openSlots s f0).map emptyIfRejected) := by
  obtain ⟨sl, hslmem, hslnone⟩ := hrej
  have hcand : ∃ c ∈ buildCandidates s, dispatch (normalizeForced s f0) c = some sl := by
    unfold candidateSlots at hslmem
    by_cases hcond : ((s.is3d && (normalizeForced s f0).isNone) || !s.is3d) = true
    · rw [if_pos hcond] at hslmem
      exact List.mem_filterMap.mp hslmem
    · rw [if_neg hcond] at hslmem
      simp at hslmem
  obtain ⟨c, hcmem, hcd⟩ := hcand
  have hlen : 0 < (buildCandidates s).length :=
    List.length_pos.mpr (List.ne_nil_of_mem hcmem)
  have hful : sl.fulfilled = false :=
    dispatch_rejected_not_fulfilled (normalizeForced s f0) c sl hcd hslnone
  have hopenmem : sl ∈ openSlots s f0 :=
    mem_prependForced (normalizeForced s f0) (candidateSlots s f0) sl hslmem
  have hany : (openSlots s f0).any (fun x => !x.fulfilled) = true :=
    List.any_eq_true.mpr ⟨sl, hopenmem, by rw [hful]; rfl⟩
  have hplen : 0 < (openSlots s f0).length :=
    List.length_pos.mpr (List.ne_nil_of_mem hopenmem)
  refine ⟨?_, rfl, aggregate_emptyIfRejected (openSlots s f0)⟩
  unfold showPopup
  simp [hmp, hlen, hany, hplen]

/-- Witness for C2: a state whose only eligible source has a rejecting
spatial query still opens on the pending promise array, and the aggregate
settles to the same features as the empty-result replacement. -/
theorem c2_rejection_witness :
    showPopup stateRejecting none = ShowAction.openPopup (openSlots stateRejecting none) ∧
    aggregateSettles (openSlots stateRejecting none) =
      some (aggregateFeatures (openSlots stateRejecting none)) ∧
    aggregateFeatures (openSlots stateRejecting none) =
      aggregateFeatures ((openSlots stateRejecting none).map emptyIfRejected) :=
  c2_rejection_swallowed stateRejecting none (by decide)
    ⟨{ fulfilled := false, tSyncHere := false, result := none }, by decide, rfl⟩

/-! ## C4: the forced feature in the final ordered result -/

/-- C4 counterexample: a forced feature without its own popup template,
owned by a spatially queried source with a unique identifier field, is
dropped entirely: the duplicate filter removes every returned feature
sharing its identifier, but line 223 never prepends the forced feature
(its `a.popupTemplate` guard fails), so it appears zero times instead of
exactly once. -/
theorem c4_counterexample :
    normalizeForced stateWithPoint (some forcedNoTpl) = some forcedNoTpl ∧
    featLayer.objectIdField = true ∧
    (dispatch (some forcedNoTpl) featLayer).isSome = true ∧
    (aggregateFeatures (openSlots stateWithPoint (some forcedNoTpl))).count forcedNoTpl.g = 0 := by
  decide

theorem dedup_excludes (f : ForcedM) (c : LayerM) (hd : dedupApplies f c = true) :
    ∀ b ∈ contribution (some f) c, b.oid ≠ f.g.oid := by
  unfold dedupApplies usesQueryFeaturesPath at hd
  simp only [Bool.and_eq_true, Bool.not_eq_true'] at hd
  obtain ⟨⟨hlid, hoid⟩, himg, hcsv⟩ := hd
  intro b hb
  unfold contribution dispatch at hb
  rw [if_neg (by simp [himg]), if_neg (by simp [hcsv])] at hb
  cases hq : c.queryResult with
  | none => simp [hq] at hb
  | some bs =>
    rw [hq] at hb
    simp only [Option.map_some', Option.getD_some] at hb
    unfold queryFiltered at hb
    dsimp only at hb
    rw [if_pos (by simp [hlid, hoid])] at hb
    exact of_decide_eq_true (List.mem_filter.mp hb).2

theorem aggregate_filterMap (a : Option ForcedM) (d : List LayerM) :
    aggregateFeatures (d.filterMap (dispatch a)) = (d.map (contribution a)).flatten := by
  induction d with
  | nil => rfl
  | cons c cs ih =>
    cases hd : dispatch a c with
    | none =>
      rw [List.filterMap_cons_none hd, List.map_cons, List.flatten_cons, ih]
      have hco : contribution a c = [] := by
        unfold contribution
        rw [hd]
      rw [hco, List.nil_append]
    | some sl =>
      rw [List.filterMap_cons_some hd, List.map_cons, List.flatten_cons, ← ih]
      have hco : contribution a c = sl.result.getD [] := by
        unfold contribution
        rw [hd]
      rw [hco]
      rfl

/-- C4 amended: when the forced feature carries its own popup template and
its owning (non-scene) source is spatially queried with a unique identifier
field, the forced feature is prepended ahead of all source-driven results
and every feature that source returns sharing its identifier is dropped, so
— provided no other source returns the forced feature — it appears exactly
once in the final ordered result.  Without its own popup template (and a
non-scene owner) it is not prepended at all, see the counterexample. -/
theorem c4_amended_forced_once (s : ShowState) (f : ForcedM) (L : LayerM)
    (h2d : s.is3d = false)
    (hnorm : normalizeForced s (some f) = some f)
    (hlayer : f.layer = some L)
    (hscene : (L.ltype == LType.scene) = false)
    (htpl : f.g.popupTemplate = true)
    (hfresh : ∀ c ∈ buildCandidates s, dedupApplies f c = true ∨ f.g ∉ contribution (some f) c) :
    aggregateFeatures (openSlots s (some f)) =
      f.g :: aggregateFeatures (candidateSlots s (some f)) ∧
    (aggregateFeatures (openSlots s (some f))).count f.g = 1 := by
  have hslots : openSlots s (some f) =
      { fulfilled := true, tSyncHere := false, result := some [f.g] } ::
        candidateSlots s (some f) := by
    unfold openSlots prependForced
    rw [hnorm]
    simp only [hlayer]
    rw [if_neg (by simp [hscene]), if_pos htpl]
  have hagg1 : aggregateFeatures (openSlots s (some f)) =
      f.g :: aggregateFeatures (candidateSlots s (some f)) := by
    rw [hslots]
    unfold aggregateFeatures
    rw [List.map_cons, List.flatten_cons]
    rfl
  refine ⟨hagg1, ?_⟩
  rw [hagg1, List.count_cons_self]
  have hcs : candidateSlots s (some f) =
      (buildCandidates s).filterMap (dispatch (some f)) := by
    unfold candidateSlots
    rw [if_pos (by simp [h2d]), hnorm]
  have hrest : f.g ∉ aggregateFeatures (candidateSlots s (some f)) := by
    intro hmem
    rw [hcs, aggregate_filterMap] at hmem
    rcases List.mem_flatten.mp hmem with ⟨l, hl, hgin⟩
    rcases List.mem_map.mp hl with ⟨c, hcmem, rfl⟩
    rcases hfresh c hcmem with hdedup | hnot
    · exact dedup_excludes f c hdedup f.g hgin rfl
    · exact hnot hgin
  rw [List.count_eq_zero.mpr hrest]

/-- Witness for the amended C4: the forced feature with its own template,
identifier 7, against a source returning features with identifiers 7 and 8,
yields the forced feature first and exactly once. -/
theorem c4_amended_witness :
    aggregateFeatures (openSlots stateWithPoint (some forcedWithTpl)) =
      forcedWithTpl.g :: aggregateFeatures (candidateSlots stateWithPoint (some forcedWithTpl)) ∧
    (aggregateFeatures (openSlots stateWithPoint (some forcedWithTpl))).count forcedWithTpl.g = 1 :=
  c4_amended_forced_once stateWithPoint forcedWithTpl featLayer (by decide) (by decide)
    (by decide) (by decide) (by decide) (by decide)

/-! ## C1: a superseded resolution cannot overwrite newer state -/

theorem comp_pid_settle (r q : Nat) :
    ((fun pop : PopupInstance => pop.pid == q) ∘ fun pop =>
      if pop.pid == r then { pop with displayed := some (aggregateFeatures pop.slots) }
      else pop) =
    (fun pop : PopupInstance => pop.pid == q) := by
  funext pop
  by_cases hp : (pop.pid == r) = true <;> simp [Function.comp, hp]

theorem settle_other_id (st : ManagerState) (r q : Nat) (hne : q ≠ r) :
    displayedOf (settleResolution st r) q = displayedOf st q := by
  unfold displayedOf settleResolution
  dsimp only
  rw [List.find?_map, comp_pid_settle r q]
  cases hf : st.floatpops.find? (fun pop => pop.pid == q) with
  | none => rfl
  | some pop =>
    have hq := List.find?_some hf
    simp only [beq_iff_eq] at hq
    simp [hq, hne]

theorem settle_own_id (st : ManagerState) (r : Nat) (pop : PopupInstance)
    (hf : st.floatpops.find? (fun q => q.pid == r) = some pop) :
    displayedOf (settleResolution st r) r = some (aggregateFeatures pop.slots) := by
  unfold displayedOf settleResolution
  dsimp only
  rw [List.find?_map, comp_pid_settle r r, hf]
  have hq := List.find?_some hf
  simp only [beq_iff_eq] at hq
  simp [hq]

/-- C1: when a second resolution R2 starts (a second `_showPopup` open
path runs) before the first resolution R1 has settled, each resolution's
promises are owned by the fresh `FloatPop` instance created for it, so
letting R1 settle afterwards does not change the feature set displayed for
R2: the superseded resolution's settlement never overwrites the newer
instance's FeatureSet, which stays exactly what R2's own promises
produced. -/
theorem c1_superseded_settlement (st : ManagerState) (p1 p2 : List Slot)
    (hfresh : ∀ pop ∈ st.floatpops, pop.pid < st.nextId) :
    displayedOf
        (settleResolution
          (settleResolution (openNewPopup (openNewPopup st p1) p2) (st.nextId + 1))
          st.nextId)
        (st.nextId + 1) =
      displayedOf (settleResolution (openNewPopup (openNewPopup st p1) p2) (st.nextId + 1))
        (st.nextId + 1) ∧
    displayedOf
        (settleResolution
          (settleResolution (openNewPopup (openNewPopup st p1) p2) (st.nextId + 1))
          st.nextId)
        (st.nextId + 1) =
      some (aggregateFeatures p2) := by
  have hne : st.nextId + 1 ≠ st.nextId := by omega
  have h1 := settle_other_id
    (settleResolution (openNewPopup (openNewPopup st p1) p2) (st.nextId + 1))
    st.nextId (st.nextId + 1) hne
  refine ⟨h1, ?_⟩
  rw [h1]
  have hfind : (openNewPopup (openNewPopup st p1) p2).floatpops.find?
      (fun pop => pop.pid == st.nextId + 1) =
      some { pid := st.nextId + 1, slots := p2, displayed := none } := by
    unfold openNewPopup
    dsimp only
    rw [List.find?_append, List.find?_append]
    have hnone1 : st.floatpops.find? (fun pop => pop.pid == st.nextId + 1) = none := by
      rw [List.find?_eq_none]
      intro pop hmem
      have hlt := hfresh pop hmem
      simp only [beq_iff_eq]
      omega
    have hnone2 : ([{ pid := st.nextId, slots := p1, displayed := none }] :
        List PopupInstance).find? (fun pop => pop.pid == st.nextId + 1) = none := by
      rw [List.find?_eq_none]
      intro pop hmem
      simp only [List.mem_singleton] at hmem
      rw [hmem]
      simp only [beq_iff_eq]
      omega
    rw [hnone1, hnone2]
    simp
  exact settle_own_id (openNewPopup (openNewPopup st p1) p2) (st.nextId + 1) _ hfind

/-- Witness for C1: from an empty manager, resolution R1 with no promises
and resolution R2 resolving to `gOther`; settling R2 then R1 leaves R2's
instance displaying exactly R2's aggregate. -/
theorem c1_superseded_witness :
    displayedOf
        (settleResolution
          (settleResolution
            (openNewPopup (openNewPopup ⟨[], 0⟩ [])
              [{ fulfilled := false, tSyncHere := false, result := some [gOther] }]) 1)
          0) 1 =
      displayedOf
        (settleResolution
          (openNewPopup (openNewPopup ⟨[], 0⟩ [])
            [{ fulfilled := false, tSyncHere := false, result := some [gOther] }]) 1) 1 ∧
    displayedOf
        (settleResolution
          (settleResolution
            (openNewPopup (openNewPopup ⟨[], 0⟩ [])
              [{ fulfilled := false, tSyncHere := false, result := some [gOther] }]) 1)
          0) 1 =
      some (aggregateFeatures
        [{ fulfilled := false, tSyncHere := false, result := some [gOther] }]) :=
  c1_superseded_settlement ⟨[], 0⟩ []
    [{ fulfilled := false, tSyncHere := false, result := some [gOther] }]
    (by intro pop h; exact absurd h (List.not_mem_nil pop))

end FloatPopSpec
